import Mathlib

set_option linter.unusedVariables false

deriving instance DecidableEq for Except

namespace Ohmy

/-- Exceptions raised along the embedded code paths of src/ohmy.py. `MySQLException`
is the module's own error class (the spec's SchemaError / FieldError / NotFoundError /
ConsistencyError all surface as `MySQLException` with distinguishing messages); the
other constructors model the Python runtime exceptions the code can raise. -/
inductive Exn where
  | MySQLException (msg : String)
  | TypeErrorE (msg : String)
  | KeyErrorE (msg : String)
  | NameErrorE (msg : String)
  | ValueErrorE (msg : String)
  | AttributeErrorE (msg : String)
  | IndexErrorE (msg : String)
  deriving DecidableEq, Repr

/-- A `datetime.datetime` value (microseconds are never produced by the code paths
embedded here, so they are omitted). -/
structure PyDateTime where
  year : Nat
  month : Nat
  day : Nat
  hour : Nat
  minute : Nat
  second : Nat
  deriving DecidableEq, Repr

/-- Python 2 runtime values flowing through the record layer. `str` models the
Python 2 `str` type, which is simultaneously the byte-string type (`bytes is str`
in Python 2; the module uses `has_key`, tuple-indexed exceptions and Python 2
`print`, so Python 2 semantics are the ones under which it runs at all).
`uuidv b` models a `uuid.UUID` object whose `.bytes` attribute is `b`. -/
inductive Value where
  | none
  | int (n : Int)
  | str (s : String)
  | datetime (d : PyDateTime)
  | uuidv (b : String)
  deriving DecidableEq, Repr

namespace MySQLType

/-- MySQLType.Representation (src/ohmy.py:58). -/
inductive Representation where
  | INTERNAL
  | MYSQL
  | EXTERNAL
  deriving DecidableEq, Repr

/-- MySQLType.Field (src/ohmy.py:64). `UNKNOWN` stands for the Python value `0`
returned by `MySQLTable._getInternalFieldType` when no rule matches; `0` is not a
member of the `Field` enum, so it compares unequal to every real field type. -/
inductive Field where
  | INTEGER
  | FLOAT
  | DATETIME
  | STRING
  | BINARY
  | UNKNOWN
  deriving DecidableEq, Repr

end MySQLType

/-- One entry of the per-field metadata dict built in MySQLTable.__init__
(src/ohmy.py:286-293). `Typ` embeds the dict key 'Type' (a Lean structure field
cannot be called `Type`). -/
structure FieldMeta where
  Typ : String
  DataType : MySQLType.Field
  Null : String
  Key : String
  Default : Value
  Extra : String
  deriving DecidableEq, Repr

/-- One row of the `DESCRIBE` result consumed by MySQLTable.__init__
(src/ohmy.py:283-293): (name, type, null, key, default, extra). The MySQL driver
returns strings for every column but the default, which may be NULL. -/
structure DescRow where
  name : String
  typ : String
  null : String
  key : String
  default : Value
  extra : String
  deriving DecidableEq, Repr

/-- The driver cursor state observed after `cursor.execute` (external collaborator):
the rows `fetchall` will return, `lastrowid` and `rowcount`. -/
structure Cursor where
  rows : List (List Value)
  lastrowid : Int
  rowcount : Int
  deriving DecidableEq, Repr

/-- The database/driver boundary (MySQLDatabase plus the MySQLdb cursor, both
external collaborators). `check` is `MySQLDatabase.checkConnection` (liveness probe
with its internal reconnect); `describe` is the typed row set of a `DESCRIBE`
statement; `exec` executes any other statement and yields the resulting cursor
state. An `Except.error` response models any connection or execution failure. -/
structure Db where
  check : Except Exn Unit
  describe : String → Except Exn (List DescRow)
  exec : String → Except Exn Cursor

/-- External library collaborators used by the record layer: `parseDate` is
`dateutil.parser.parse`, `pyFloat` is the Python `float(value)` coercion and
`fmtF` is the `'%f' % value` rendering (floating-point semantics are not embedded;
these three are opaque parameters of every theorem that touches them). -/
structure Ext where
  parseDate : Value → Except Exn PyDateTime
  pyFloat : Value → Except Exn Value
  fmtF : Value → Except Exn String

/-- Argument shapes accepted by MySQLTable._whereString (src/ohmy.py:321):
a list/tuple of condition strings or a single condition string. -/
inductive WhereArg where
  | listW (l : List String)
  | strW (s : String)
  deriving DecidableEq, Repr

/-- Argument shapes accepted by MySQLTable._orderString (src/ohmy.py:336):
a list (field, direction, ...) or any other value, which is passed through `str`. -/
inductive OrderArg where
  | listO (l : List String)
  | strO (s : String)
  deriving DecidableEq, Repr

/-- Argument shapes accepted by MySQLTable._limitString (src/ohmy.py:360):
a single count or a two-element offset/count list. -/
inductive LimitArg where
  | single (n : Int)
  | pair (a b : Int)
  deriving DecidableEq, Repr

/-- MySQLTable state (src/ohmy.py:269-294). `INDEX` is the `self.__INDEX`
attribute assigned by `_execute(..., insert=True)` (src/ohmy.py:410); Python leaves
it unset until then, embedded as `Option.none`. Python dicts are embedded as
association lists (Python 2 dict iteration order is unspecified, so no theorem
relies on the order of `META`). -/
structure MySQLTable where
  META : List (String × FieldMeta)
  FIELDS : List String
  TABLENAME : String
  PKEY : Option String
  INDEX : Option Int
  deriving DecidableEq, Repr

/-- MySQLRecord state (src/ohmy.py:81-106): `DATA` is the current values,
`ODATA` the baseline captured by `__sync`, `INDEX` the identity value, and
`PKEY`/`FIELDS`/`META` the copies taken from the owning table. The Python record
also stores a reference to its table; the embedding passes the table explicitly
to the operations that need it. -/
structure MySQLRecord where
  DATA : List (String × Value)
  ODATA : List (String × Value)
  INDEX : Option Value
  PKEY : Option String
  FIELDS : List String
  META : List (String × FieldMeta)
  deriving DecidableEq, Repr

/-- Outcome of MySQLRecord.save (src/ohmy.py:250-256): the insert path returns the
freshly re-selected record (with the mutated original record kept alongside, since
the embedding is functional); the update path returns the boolean from
MySQLTable.update, with the record it was called on (which Python leaves untouched). -/
inductive SaveResult where
  | inserted (orig : MySQLRecord) (fetched : Option MySQLRecord)
  | updated (orig : MySQLRecord) (res : Bool)
  deriving DecidableEq, Repr

/-- Association-list lookup embedding Python dict read `l[k]`. -/
def alookup {β : Type} : List (String × β) → String → Option β
  | [], _ => Option.none
  | (a, b) :: rest, key => if a = key then some b else alookup rest key

/-- Removal of a key from an association list (helper of `setAssoc`). -/
def eraseKeyA {β : Type} : List (String × β) → String → List (String × β)
  | [], _ => []
  | (a, b) :: rest, key =>
    if a = key then eraseKeyA rest key else (a, b) :: eraseKeyA rest key

/-- Python dict write `l[k] = v` (order of entries is canonicalised; Python 2 dict
order is unspecified and nothing embedded here depends on it). -/
def setAssoc {β : Type} (l : List (String × β)) (key : String) (v : β) : List (String × β) :=
  (key, v) :: eraseKeyA l key

/-- Python dict read `l[k]`, raising KeyError when the key is absent. -/
def dget {β : Type} (l : List (String × β)) (k : String) : Except Exn β :=
  match alookup l k with
  | some v => Except.ok v
  | Option.none => Except.error (Exn.KeyErrorE k)

/-- Python list indexing `l[i]`, raising IndexError when out of range. -/
def pyIndex {α : Type} (l : List α) (i : Nat) : Except Exn α :=
  match l.get? i with
  | some v => Except.ok v
  | Option.none => Except.error (Exn.IndexErrorE "list index out of range")

/-- binascii.hexlify of a Python 2 byte string (lowercase hex, two digits per byte). -/
def hexlify (s : String) : String :=
  String.mk (s.data.foldr
    (fun c acc => Nat.digitChar (c.toNat / 16 % 16) :: Nat.digitChar (c.toNat % 16) :: acc) [])

/-- Zero-padded decimal rendering used by strftime. -/
def padZ (n : Nat) (w : Nat) : String :=
  let s := toString n
  String.mk (List.replicate (w - s.length) '0') ++ s

/-- value.strftime of the fixed format used at src/ohmy.py:161, which coincides
with Python 2 `str(datetime)` when the microsecond field is zero. -/
def strftimeYmdHMS (d : PyDateTime) : String :=
  padZ d.year 4 ++ "-" ++ padZ d.month 2 ++ "-" ++ padZ d.day 2 ++ " " ++
    padZ d.hour 2 ++ ":" ++ padZ d.minute 2 ++ ":" ++ padZ d.second 2

/-- Canonical hyphenated rendering of a UUID from its 16-byte form (Python
`str(uuid.UUID)`). -/
def uuidStr (b : String) : String :=
  let h := (hexlify b).data
  String.mk (h.take 8) ++ "-" ++ String.mk ((h.drop 8).take 4) ++ "-" ++
    String.mk ((h.drop 12).take 4) ++ "-" ++ String.mk ((h.drop 16).take 4) ++ "-" ++
    String.mk (h.drop 20)

/-- Python `str(value)` / `'%s' % value` for the embedded value constructors. -/
def pyStrFn : Value → String
  | Value.none => "None"
  | Value.int n => toString n
  | Value.str s => s
  | Value.datetime d => strftimeYmdHMS d
  | Value.uuidv b => uuidStr b

/-- value.replace("'", "\\'") from src/ohmy.py:162: each single quote (code 39)
becomes backslash (code 92) followed by the quote. -/
def escapeSq (s : String) : String :=
  String.mk (s.data.foldr
    (fun c acc => if c.toNat = 39 then Char.ofNat 92 :: Char.ofNat 39 :: acc else c :: acc) [])

/-- Python `bin(n)` of an int: '0b' prefixed binary digits, '-0b' for negatives. -/
def pybin (n : Int) : String :=
  if n < 0 then "-0b" ++ String.mk (Nat.toDigits 2 n.natAbs)
  else "0b" ++ String.mk (Nat.toDigits 2 n.natAbs)

/-- Decimal digit accumulator for the embedded `int(str)` parse. -/
def decNatAux : List Char → Nat → Option Nat
  | [], acc => some acc
  | c :: cs, acc =>
    if c.isDigit then decNatAux cs (acc * 10 + (c.toNat - 48)) else Option.none

/-- Decimal parse of a Python string for `int(str)`: optional leading minus then
at least one digit (Python's further tolerance for whitespace and '+' is not
exercised by any embedded path). -/
def pyIntParse (s : String) : Option Int :=
  match s.data with
  | [] => Option.none
  | '-' :: rest =>
    match rest with
    | [] => Option.none
    | _ => (decNatAux rest 0).map (fun n => -(n : Int))
  | l => (decNatAux l 0).map (fun n => (n : Int))

/-- Python `int(value)` coercion as used by the formatters (src/ohmy.py:150,163):
identity on ints, decimal parse of strings (ValueError on failure), TypeError on
the other embedded constructors. -/
def pyInt : Value → Except Exn Value
  | Value.int n => Except.ok (Value.int n)
  | Value.str s =>
      match pyIntParse s with
      | some n => Except.ok (Value.int n)
      | Option.none => Except.error (Exn.ValueErrorE s)
  | Value.none => Except.error (Exn.TypeErrorE "int() argument")
  | Value.datetime _ => Except.error (Exn.TypeErrorE "int() argument")
  | Value.uuidv _ => Except.error (Exn.TypeErrorE "int() argument")

/-- MySQLRecord._determineDataRepresentation (src/ohmy.py:133): a missing argument
defaults to INTERNAL. The `Unxpected representation` raise is unreachable in the
embedding because Representation is a closed enum. -/
def determineDataRepresentation (datarep : Option MySQLType.Representation) :
    MySQLType.Representation :=
  datarep.getD MySQLType.Representation.INTERNAL

/-- MySQLRecord._mysqlFieldFormatter (src/ohmy.py:155-166). The DataType lookup
happens before the None check, exactly as in the source; a None value yields the
literal string 'NULL' for every field type, bypassing the per-type rules. The
per-type rules raise the Python exceptions the source would raise on values of the
wrong runtime type (hexlify and str.replace demand a byte string, strftime demands
a datetime). The fall-through for an unmatched DataType (the Python value 0) raises
TypeError with the declared type string, as written at src/ohmy.py:166. -/
def mysqlFieldFormatter (ext : Ext) (r : MySQLRecord) (field : String) (value : Value) :
    Except Exn Value :=
  match dget r.META field with
  | Except.error e => Except.error e
  | Except.ok meta =>
    if value = Value.none then Except.ok (Value.str "NULL")
    else
      match meta.DataType with
      | MySQLType.Field.BINARY =>
          match value with
          | Value.str s => Except.ok (Value.str ("x'" ++ hexlify s ++ "'"))
          | _ => Except.error (Exn.TypeErrorE "must be string or buffer")
      | MySQLType.Field.DATETIME =>
          match value with
          | Value.datetime d => Except.ok (Value.str ("'" ++ strftimeYmdHMS d ++ "'"))
          | _ => Except.error (Exn.AttributeErrorE "strftime")
      | MySQLType.Field.STRING =>
          match value with
          | Value.str s => Except.ok (Value.str ("'" ++ escapeSq s ++ "'"))
          | _ => Except.error (Exn.AttributeErrorE "replace")
      | MySQLType.Field.INTEGER => pyInt value
      | MySQLType.Field.FLOAT =>
          match ext.fmtF value with
          | Except.ok s => Except.ok (Value.str s)
          | Except.error e => Except.error e
      | MySQLType.Field.UNKNOWN =>
          Except.error (Exn.TypeErrorE ("Unknown Field Type " ++ meta.Typ))

/-- MySQLRecord._externalFieldFormatter (src/ohmy.py:142-153). A None value yields
the literal string 'NULL' here as well (the source returns the same 'NULL' text for
the EXTERNAL representation). The unmatched-DataType fall-through at src/ohmy.py:153
evaluates the bare name `META`, which is undefined at that scope, so Python raises
NameError while building the TypeError message; the embedding raises that NameError. -/
def externalFieldFormatter (ext : Ext) (r : MySQLRecord) (field : String) (value : Value) :
    Except Exn Value :=
  match dget r.META field with
  | Except.error e => Except.error e
  | Except.ok meta =>
    if value = Value.none then Except.ok (Value.str "NULL")
    else
      match meta.DataType with
      | MySQLType.Field.BINARY =>
          match value with
          | Value.str s => Except.ok (Value.str (hexlify s))
          | _ => Except.error (Exn.TypeErrorE "must be string or buffer")
      | MySQLType.Field.DATETIME => Except.ok value
      | MySQLType.Field.STRING => Except.ok (Value.str (pyStrFn value))
      | MySQLType.Field.INTEGER => pyInt value
      | MySQLType.Field.FLOAT => ext.pyFloat value
      | MySQLType.Field.UNKNOWN => Except.error (Exn.NameErrorE "META")

/-- The write-time coercion block of MySQLRecord.setField (src/ohmy.py:200-210).
DATETIME: a non-None, non-datetime value is passed to dateutil.parser.parse.
BINARY: under Python 2 a `str` already satisfies `isinstance(value, bytes)` (bytes
is str), so it is stored unchanged and the `uuid.UUID(value).bytes` branch is dead
for strings; an int goes through `bin`, a uuid.UUID object through `.bytes`, and
anything else falls through unchanged. -/
def setFieldCoerce (ext : Ext) (ft : MySQLType.Field) (value : Value) : Except Exn Value :=
  match ft, value with
  | MySQLType.Field.DATETIME, Value.none => Except.ok Value.none
  | MySQLType.Field.DATETIME, Value.datetime d => Except.ok (Value.datetime d)
  | MySQLType.Field.DATETIME, v =>
      match ext.parseDate v with
      | Except.ok d => Except.ok (Value.datetime d)
      | Except.error e => Except.error e
  | MySQLType.Field.BINARY, Value.none => Except.ok Value.none
  | MySQLType.Field.BINARY, Value.str s => Except.ok (Value.str s)
  | MySQLType.Field.BINARY, Value.int n => Except.ok (Value.str (pybin n))
  | MySQLType.Field.BINARY, Value.uuidv b => Except.ok (Value.str b)
  | MySQLType.Field.BINARY, v => Except.ok v
  | _, v => Except.ok v

/-- MySQLRecord.getField (src/ohmy.py:169-184). The PRIMARY alias resolves to the
record's primary-key name; when no primary key exists the resolved name is the
Python value None, which is not in FIELDS, so the 'Field None is not defined'
MySQLException results. The `value` parameter overrides the stored value when it
is not None, exactly as `if value != None` does in the source. -/
def MySQLRecord.getField (ext : Ext) (r : MySQLRecord) (field : String)
    (datarep : Option MySQLType.Representation) (value : Value) : Except Exn Value :=
  match (if field = "PRIMARY" then r.PKEY else some field) with
  | Option.none => Except.error (Exn.MySQLException "Field None is not defined")
  | some f =>
    let dr := determineDataRepresentation datarep
    if f ∈ r.FIELDS then
      match dget r.DATA f with
      | Except.error e => Except.error e
      | Except.ok v0 =>
        let v1 := if value ≠ Value.none then value else v0
        match dr with
        | MySQLType.Representation.INTERNAL => Except.ok v1
        | MySQLType.Representation.MYSQL => mysqlFieldFormatter ext r f v1
        | MySQLType.Representation.EXTERNAL => externalFieldFormatter ext r f v1
    else Except.error (Exn.MySQLException ("Field " ++ f ++ " is not defined"))

/-- MySQLRecord.setField (src/ohmy.py:187-218). The META lookup for the field's
DataType happens before the membership check, so an undeclared field name raises
KeyError there; the `raise AttributeException(...)` in the final else names a class
that does not exist, so reaching it would raise NameError (it is unreachable for
records built by this module, whose META keys coincide with FIELDS). Resolving the
PRIMARY alias with no primary key makes the looked-up key the Python value None,
raising KeyError. The `has_key('__ODATA')` first-write branch is a no-op because
__init__ always creates ODATA. -/
def MySQLRecord.setField (ext : Ext) (r : MySQLRecord) (field : String) (value : Value) :
    Except Exn MySQLRecord :=
  match (if field = "PRIMARY"
         then (match r.PKEY with
               | some p => Except.ok p
               | Option.none => Except.error (Exn.KeyErrorE "None"))
         else Except.ok field) with
  | Except.error e => Except.error e
  | Except.ok f =>
    match dget r.META f with
    | Except.error e => Except.error e
    | Except.ok meta =>
      match setFieldCoerce ext meta.DataType value with
      | Except.error e => Except.error e
      | Except.ok v =>
        if f ∈ r.FIELDS then Except.ok { r with DATA := setAssoc r.DATA f v }
        else Except.error (Exn.NameErrorE "AttributeException")

/-- Loop body of MySQLRecord.__sync (src/ohmy.py:109-112): copy DATA into ODATA
for each declared field. -/
def syncAux (l : List String) (r : MySQLRecord) : Except Exn MySQLRecord :=
  match l with
  | [] => Except.ok r
  | i :: rest =>
    match dget r.DATA i with
    | Except.error e => Except.error e
    | Except.ok v => syncAux rest { r with ODATA := setAssoc r.ODATA i v }

/-- MySQLRecord.__sync (src/ohmy.py:109-112). -/
def MySQLRecord.sync (r : MySQLRecord) : Except Exn MySQLRecord :=
  syncAux r.FIELDS r

/-- Defaults loop of MySQLRecord.__init__ (src/ohmy.py:98-99): seed DATA with each
field's introspected default. -/
def initDefaults (l : List String) (r : MySQLRecord) : Except Exn MySQLRecord :=
  match l with
  | [] => Except.ok r
  | i :: rest =>
    match dget r.META i with
    | Except.error e => Except.error e
    | Except.ok meta => initDefaults rest { r with DATA := setAssoc r.DATA i meta.Default }

/-- Seed-data loop of MySQLRecord.__init__ (src/ohmy.py:101-103): apply setField to
each supplied key that names a declared field, skipping the rest. -/
def initSeed (ext : Ext) (l : List (String × Value)) (r : MySQLRecord) :
    Except Exn MySQLRecord :=
  match l with
  | [] => Except.ok r
  | (k, v) :: rest =>
    if k ∈ r.FIELDS then
      match MySQLRecord.setField ext r k v with
      | Except.error e => Except.error e
      | Except.ok r2 => initSeed ext rest r2
    else initSeed ext rest r

/-- MySQLRecord.__init__ (src/ohmy.py:81-106): copy the table's schema state,
seed defaults, overlay the supplied data via setField, then sync the baseline. -/
def MySQLRecord.init (ext : Ext) (t : MySQLTable) (data : List (String × Value))
    (index : Option Value) : Except Exn MySQLRecord :=
  let r0 : MySQLRecord :=
    { DATA := [], ODATA := [], INDEX := index, PKEY := t.PKEY,
      FIELDS := t.FIELDS, META := t.META }
  match initDefaults t.FIELDS r0 with
  | Except.error e => Except.error e
  | Except.ok r1 =>
    match initSeed ext data r1 with
    | Except.error e => Except.error e
    | Except.ok r2 => MySQLRecord.sync r2

/-- Loop of MySQLRecord.isModified (src/ohmy.py:221-227). -/
def isModifiedAux (r : MySQLRecord) : List String → Except Exn Bool
  | [] => Except.ok false
  | i :: rest =>
    match dget r.DATA i, dget r.ODATA i with
    | Except.ok d, Except.ok o =>
        if d ≠ o then Except.ok true else isModifiedAux r rest
    | Except.error e, _ => Except.error e
    | _, Except.error e => Except.error e

/-- MySQLRecord.isModified (src/ohmy.py:221-227). -/
def MySQLRecord.isModified (r : MySQLRecord) : Except Exn Bool :=
  isModifiedAux r r.FIELDS

/-- Loop of MySQLRecord.changes (src/ohmy.py:230-237); the result keeps FIELDS
order, a deterministic stand-in for Python 2 dict order. -/
def changesAux (ext : Ext) (r : MySQLRecord) (datarep : Option MySQLType.Representation) :
    List String → Except Exn (List (String × Value))
  | [] => Except.ok []
  | i :: rest =>
    match dget r.DATA i, dget r.ODATA i with
    | Except.ok d, Except.ok o =>
        if d ≠ o then
          match MySQLRecord.getField ext r i datarep Value.none with
          | Except.error e => Except.error e
          | Except.ok v =>
            match changesAux ext r datarep rest with
            | Except.error e => Except.error e
            | Except.ok res => Except.ok ((i, v) :: res)
        else changesAux ext r datarep rest
    | Except.error e, _ => Except.error e
    | _, Except.error e => Except.error e

/-- MySQLRecord.changes (src/ohmy.py:230-237). -/
def MySQLRecord.changes (ext : Ext) (r : MySQLRecord)
    (datarep : Option MySQLType.Representation) : Except Exn (List (String × Value)) :=
  changesAux ext r datarep r.FIELDS

/-- Loop of MySQLRecord.data (src/ohmy.py:240-247). -/
def dataAux (ext : Ext) (r : MySQLRecord) (datarep : Option MySQLType.Representation) :
    List String → Except Exn (List (String × Value))
  | [] => Except.ok []
  | i :: rest =>
    match MySQLRecord.getField ext r i datarep Value.none with
    | Except.error e => Except.error e
    | Except.ok v =>
      match dataAux ext r datarep rest with
      | Except.error e => Except.error e
      | Except.ok res => Except.ok ((i, v) :: res)

/-- MySQLRecord.data (src/ohmy.py:240-247). -/
def MySQLRecord.data (ext : Ext) (r : MySQLRecord)
    (datarep : Option MySQLType.Representation) : Except Exn (List (String × Value)) :=
  dataAux ext r datarep r.FIELDS

/-- An anchored `re.search('^pat', s)` test: pat is a prefix of s (embedded on the
character lists). -/
def startsWithP (s : String) (p : String) : Bool :=
  List.isPrefixOf p.data s.data

/-- MySQLTable._getInternalFieldType (src/ohmy.py:296-302): ordered anchored
prefix rules, first match wins; the Python `return 0` for an unmatched type string
is embedded as the UNKNOWN sentinel. -/
def getInternalFieldType (ftype : String) : MySQLType.Field :=
  if startsWithP ftype "binary" then MySQLType.Field.BINARY
  else if startsWithP ftype "datetime" then MySQLType.Field.DATETIME
  else if ["smallint", "int", "tinyint", "mediumint", "bigint"].any
      (fun p => startsWithP ftype p) then MySQLType.Field.INTEGER
  else if ["number", "decimal", "float", "double"].any
      (fun p => startsWithP ftype p) then MySQLType.Field.FLOAT
  else if ["text", "char", "blob", "varchar", "string"].any
      (fun p => startsWithP ftype p) then MySQLType.Field.STRING
  else MySQLType.Field.UNKNOWN

/-- Per-row body of the DESCRIBE loop in MySQLTable.__init__ (src/ohmy.py:283-293):
a 'PRI' key role sets (and a later one overwrites) the primary key, the name is
appended to the field order and the metadata entry is recorded. -/
def initStep (t : MySQLTable) (row : DescRow) : MySQLTable :=
  { t with
    PKEY := if row.key = "PRI" then some row.name else t.PKEY,
    FIELDS := t.FIELDS ++ [row.name],
    META := setAssoc t.META row.name
      { Typ := row.typ, DataType := getInternalFieldType row.typ,
        Null := row.null, Key := row.key, Default := row.default,
        Extra := row.extra } }

/-- MySQLTable.__init__ (src/ohmy.py:269-294): raise when no database object was
supplied, run the liveness check, issue DESCRIBE and fold its rows into
FIELDS / META / PKEY. There is no emptiness check on the description: zero rows
produce a table with empty FIELDS. -/
def MySQLTable.init (database : Option Db) (tablename : String) : Except Exn MySQLTable :=
  match database with
  | Option.none => Except.error (Exn.MySQLException "No Database Connection")
  | some db =>
    match db.check with
    | Except.error e => Except.error e
    | Except.ok _ =>
      match db.describe ("DESCRIBE `" ++ tablename ++ "`") with
      | Except.error e => Except.error e
      | Except.ok res =>
        Except.ok (res.foldl initStep
          { META := [], FIELDS := [], TABLENAME := tablename,
            PKEY := Option.none, INDEX := Option.none })

/-- MySQLTable._fieldString (src/ohmy.py:305). -/
def fieldString (keys : List String) : String :=
  String.intercalate "," (keys.map (fun v => "`" ++ v ++ "`"))

/-- MySQLTable._dataString (src/ohmy.py:309): '%s' rendering of each value, joined
by commas in the dict's iteration order (here: list order). -/
def dataString (data : List (String × Value)) : String :=
  String.intercalate "," (data.map (fun kv => pyStrFn kv.2))

/-- MySQLTable._setString (src/ohmy.py:312). -/
def setString (data : List (String × Value)) : String :=
  String.intercalate "," (data.map (fun kv => "`" ++ kv.1 ++ "` = " ++ pyStrFn kv.2))

/-- MySQLTable._joinString (src/ohmy.py:315-319): the function builds a local
default and then returns its argument unchanged, so a missing join yields the
Python value None (which the `%s` in select renders as the text 'None'). -/
def joinStringF (s : Option String) : Option String := s

/-- The `%s` rendering of the join fragment inside select: the Python value None
prints as the text 'None'. -/
def renderJoin : Option String → String
  | some s => s
  | Option.none => "None"

/-- MySQLTable._whereString (src/ohmy.py:321-333): list/tuple conditions are
comma-joined after WHERE, a plain string is used as is, a missing argument yields
the empty fragment. The trailing raise is unreachable over the closed WhereArg type. -/
def whereString : Option WhereArg → String
  | some (WhereArg.listW l) => "WHERE " ++ String.intercalate "," l
  | some (WhereArg.strW s) => "WHERE " ++ s
  | Option.none => ""

/-- MySQLTable._orderString (src/ohmy.py:336-348). Python evaluates `data[0]` and
`data[1]` for a list argument (IndexError on a one-element list) and `str(data)`
with default direction ASC otherwise; a falsy argument (None, empty list, empty
string) yields the empty fragment; an undeclared field raises AttributeError. -/
def orderString (t : MySQLTable) : Option OrderArg → Except Exn String
  | Option.none => Except.ok ""
  | some (OrderArg.listO l) =>
    if l = [] then Except.ok ""
    else
      match pyIndex l 0 with
      | Except.error e => Except.error e
      | Except.ok field =>
        match pyIndex l 1 with
        | Except.error e => Except.error e
        | Except.ok direct =>
          if field ∈ t.FIELDS then Except.ok ("ORDER BY `" ++ field ++ "` " ++ direct)
          else Except.error (Exn.AttributeErrorE ("Unknown Field " ++ field))
  | some (OrderArg.strO s) =>
    if s = "" then Except.ok ""
    else if s ∈ t.FIELDS then Except.ok ("ORDER BY `" ++ s ++ "` ASC")
    else Except.error (Exn.AttributeErrorE ("Unknown Field " ++ s))

/-- MySQLTable._groupString (src/ohmy.py:351-357). -/
def groupString (t : MySQLTable) : Option String → Except Exn String
  | Option.none => Except.ok ""
  | some s =>
    if s = "" then Except.ok ""
    else if s ∈ t.FIELDS then Except.ok ("GROUP BY `" ++ s ++ "`")
    else Except.error (Exn.AttributeErrorE ("Unknown Field " ++ s))

/-- The comparison `type(data) == 'list'` at src/ohmy.py:362: it compares the type
object of the argument with the string 'list', which is never equal, so it is
constantly false for every argument. -/
def typeIsStringList : LimitArg → Bool := fun _ => false

/-- MySQLTable._limitString (src/ohmy.py:360-364). Because `type(data) == 'list'`
is always false, a list argument falls through to `'LIMIT %d' % data`, where the
%d conversion of a list raises TypeError; a single count renders as LIMIT n and a
missing argument as the empty fragment. (The guarded branch is kept, translated as
written, behind the constantly-false test.) -/
def limitString : Option LimitArg → Except Exn String
  | Option.none => Except.ok ""
  | some d =>
    if typeIsStringList d then
      match d with
      | LimitArg.pair a b => Except.ok ("LIMIT " ++ toString a ++ ", " ++ toString b)
      | LimitArg.single _ => Except.error (Exn.TypeErrorE "int is not subscriptable")
    else
      match d with
      | LimitArg.single n => Except.ok ("LIMIT " ++ toString n)
      | LimitArg.pair _ _ =>
          Except.error (Exn.TypeErrorE "%d format: a number is required, not list")

/-- MySQLTable.create (src/ohmy.py:375-377). -/
def MySQLTable.create (ext : Ext) (t : MySQLTable) (data : List (String × Value)) :
    Except Exn MySQLRecord :=
  MySQLRecord.init ext t data Option.none

/-- Loop of MySQLTable._mapColumnsToKeys (src/ohmy.py:379-385): positional pairing
of the requested field names with one result row; a row longer than the field list
raises IndexError at `fields[count]`. -/
def mapColumnsToKeysAux (fields : List String) :
    List Value → Nat → List (String × Value) → Except Exn (List (String × Value))
  | [], _, acc => Except.ok acc
  | v :: rest, count, acc =>
    match fields.get? count with
    | some f => mapColumnsToKeysAux fields rest (count + 1) (setAssoc acc f v)
    | Option.none => Except.error (Exn.IndexErrorE "list index out of range")

/-- MySQLTable._mapColumnsToKeys (src/ohmy.py:379-385). -/
def mapColumnsToKeys (fields : List String) (row : List Value) :
    Except Exn (List (String × Value)) :=
  mapColumnsToKeysAux fields row 0 []

/-- MySQLTable._mapResultToRecordSet (src/ohmy.py:388-394): each row becomes a
record whose identity is `rowDict[self.__PKEY]`; that dict read raises KeyError
when the primary-key name was not among the selected fields (or when the table has
no primary key, in which case the key looked up is the Python value None). -/
def mapResultToRecordSet (ext : Ext) (t : MySQLTable) (fields : List String) :
    List (List Value) → Except Exn (List MySQLRecord)
  | [] => Except.ok []
  | row :: rest =>
    match mapColumnsToKeys fields row with
    | Except.error e => Except.error e
    | Except.ok rowDict =>
      match (match t.PKEY with
             | some p => dget rowDict p
             | Option.none => Except.error (Exn.KeyErrorE "None")) with
      | Except.error e => Except.error e
      | Except.ok idx =>
        match MySQLRecord.init ext t rowDict (some idx) with
        | Except.error e => Except.error e
        | Except.ok recObj =>
          match mapResultToRecordSet ext t fields rest with
          | Except.error e => Except.error e
          | Except.ok rs => Except.ok (recObj :: rs)

/-- MySQLTable._execute (src/ohmy.py:402-413): liveness check, statement execution,
and — on the insert flag — capture of `cursor.lastrowid` into the table's __INDEX
attribute. -/
def execStmt (t : MySQLTable) (db : Db) (statement : String) (insert : Bool) :
    Except Exn (Cursor × MySQLTable) :=
  match db.check with
  | Except.error e => Except.error e
  | Except.ok _ =>
    match db.exec statement with
    | Except.error e => Except.error e
    | Except.ok cur =>
      Except.ok (cur, if insert then { t with INDEX := some cur.lastrowid } else t)

/-- MySQLTable._check_result (src/ohmy.py:415-417). -/
def checkResult (cur : Cursor) : Except Exn Unit :=
  if cur.rowcount ≠ 1 then
    Except.error (Exn.MySQLException
      ("Expected to Update only 1 row but updated " ++ toString cur.rowcount))
  else Except.ok ()

/-- MySQLTable.select (src/ohmy.py:449-464): default the field list to the whole
schema, assemble the statement from the fragment builders (a missing join renders
as the text 'None' through `'%s' % None`), execute, and map the rows positionally
onto the requested fields. -/
def MySQLTable.select (ext : Ext) (t : MySQLTable) (db : Db)
    (fields : Option (List String)) (whereA : Option WhereArg) (order : Option OrderArg)
    (group : Option String) (joinA : Option String) (limit : Option LimitArg) :
    Except Exn (MySQLTable × List MySQLRecord) :=
  let flds := fields.getD t.FIELDS
  let joinS := renderJoin (joinStringF joinA)
  match orderString t order with
  | Except.error e => Except.error e
  | Except.ok os =>
    match groupString t group with
    | Except.error e => Except.error e
    | Except.ok gs =>
      match limitString limit with
      | Except.error e => Except.error e
      | Except.ok ls =>
        let statement :=
          "SELECT " ++ fieldString flds ++ " FROM `" ++ t.TABLENAME ++ "` " ++
            joinS ++ " " ++ whereString whereA ++ " " ++ os ++ " " ++ gs ++ " " ++
            ls ++ ";"
        match execStmt t db statement false with
        | Except.error e => Except.error e
        | Except.ok (cur, t2) =>
          match mapResultToRecordSet ext t2 flds cur.rows with
          | Except.error e => Except.error e
          | Except.ok recs => Except.ok (t2, recs)

/-- The key-name defaulting at the head of MySQLTable.get (src/ohmy.py:422):
`if not key` treats both a missing and an empty key name as absent and substitutes
the table's primary-key name. -/
def getKeyName (t : MySQLTable) (key : Option String) : Option String :=
  match key with
  | Option.none => t.PKEY
  | some s => if s = "" then t.PKEY else some s

/-- MySQLTable.get (src/ohmy.py:420-438): wire-format the key value through a
temporary record, select on a single equality condition, return the sole row when
exactly one matched; otherwise return create() when createIfNone, raise the
'ID Mismatch' MySQLException when failIfNone, and None otherwise. More than one
row takes the same fall-through as zero. A missing key name with no primary key
reaches getField with the Python value None and raises the field error. -/
def MySQLTable.get (ext : Ext) (t : MySQLTable) (db : Db) (pkey : Value)
    (key : Option String) (createIfNone : Bool) (failIfNone : Bool) :
    Except Exn (MySQLTable × Option MySQLRecord) :=
  match MySQLTable.create ext t [] with
  | Except.error e => Except.error e
  | Except.ok tr =>
    match getKeyName t key with
    | Option.none => Except.error (Exn.MySQLException "Field None is not defined")
    | some kf =>
      match MySQLRecord.getField ext tr kf (some MySQLType.Representation.MYSQL) pkey with
      | Except.error e => Except.error e
      | Except.ok w =>
        match MySQLTable.select ext t db Option.none
            (some (WhereArg.listW ["`" ++ kf ++ "` = " ++ pyStrFn w]))
            Option.none Option.none Option.none Option.none with
        | Except.error e => Except.error e
        | Except.ok (t2, recs) =>
          match recs with
          | [r] => Except.ok (t2, some r)
          | _ =>
            if createIfNone then
              match MySQLTable.create ext t [] with
              | Except.error e => Except.error e
              | Except.ok r2 => Except.ok (t2, some r2)
            else if failIfNone then Except.error (Exn.MySQLException "ID Mismatch")
            else Except.ok (t2, Option.none)

/-- MySQLTable.update (src/ohmy.py:491-502): render the UPDATE statement, execute
it and return True; the affected-row check is commented out in the source and is
not performed. -/
def MySQLTable.update (t : MySQLTable) (db : Db) (values : List (String × Value))
    (conditions : Option WhereArg) : Except Exn (MySQLTable × Bool) :=
  let statement :=
    "UPDATE `" ++ t.TABLENAME ++ "` SET " ++ setString values ++ " " ++
      whereString conditions
  match execStmt t db statement false with
  | Except.error e => Except.error e
  | Except.ok (_, t2) => Except.ok (t2, true)

/-- MySQLTable.save (src/ohmy.py:441-446): compute the wire-format changes, read
the wire-format primary-key value off the record, and run update with the single
equality condition. Nothing on this path resynchronizes the record's baseline. -/
def MySQLTable.save (ext : Ext) (t : MySQLTable) (db : Db) (record : MySQLRecord) :
    Except Exn (MySQLTable × Bool) :=
  match MySQLRecord.changes ext record (some MySQLType.Representation.MYSQL) with
  | Except.error e => Except.error e
  | Except.ok values =>
    match t.PKEY with
    | Option.none => Except.error (Exn.MySQLException "Field None is not defined")
    | some p =>
      match MySQLRecord.getField ext record p (some MySQLType.Representation.MYSQL)
          Value.none with
      | Except.error e => Except.error e
      | Except.ok kf =>
        MySQLTable.update t db values
          (some (WhereArg.listW ["`" ++ p ++ "`=" ++ pyStrFn kf]))

/-- MySQLTable.insert (src/ohmy.py:468-489), on the record path taken by
MySQLRecord.save (the dict path of the source calls `self.create(dict)` with the
dict type object, a slip that no save path exercises, and is not embedded):
serialize the full row in wire form, execute the INSERT capturing lastrowid into
the table, check exactly one row was affected, write the generated key into the
record's primary-key field via setField (KeyError on the Python value None when no
primary key exists), and return the re-selected row from get alongside the mutated
record. -/
def MySQLTable.insert (ext : Ext) (t : MySQLTable) (db : Db) (record : MySQLRecord) :
    Except Exn (MySQLTable × (MySQLRecord × Option MySQLRecord)) :=
  match MySQLRecord.data ext record (some MySQLType.Representation.MYSQL) with
  | Except.error e => Except.error e
  | Except.ok data =>
    let statement :=
      "INSERT INTO `" ++ t.TABLENAME ++ "` (" ++ fieldString (data.map Prod.fst) ++
        ") VALUES (" ++ dataString data ++ ");"
    match execStmt t db statement true with
    | Except.error e => Except.error e
    | Except.ok (cur, t1) =>
      match checkResult cur with
      | Except.error e => Except.error e
      | Except.ok _ =>
        match t1.PKEY with
        | Option.none => Except.error (Exn.KeyErrorE "None")
        | some p =>
          match t1.INDEX with
          | Option.none => Except.error (Exn.AttributeErrorE "_MySQLTable__INDEX")
          | some idx =>
            match MySQLRecord.setField ext record p (Value.int idx) with
            | Except.error e => Except.error e
            | Except.ok record2 =>
              match MySQLRecord.getField ext record2 p Option.none Value.none with
              | Except.error e => Except.error e
              | Except.ok pk =>
                match MySQLTable.get ext t1 db pk Option.none false true with
                | Except.error e => Except.error e
                | Except.ok (t2, fetched) => Except.ok (t2, (record2, fetched))

/-- MySQLRecord.save (src/ohmy.py:250-256): dispatch on the identity — absent
identity goes to the table's insert path, present identity to the update path. -/
def MySQLRecord.save (ext : Ext) (t : MySQLTable) (db : Db) (r : MySQLRecord) :
    Except Exn (MySQLTable × SaveResult) :=
  match r.INDEX with
  | Option.none =>
    match MySQLTable.insert ext t db r with
    | Except.error e => Except.error e
    | Except.ok (t2, p) => Except.ok (t2, SaveResult.inserted p.1 p.2)
  | some _ =>
    match MySQLTable.save ext t db r with
    | Except.error e => Except.error e
    | Except.ok (t2, b) => Except.ok (t2, SaveResult.updated r b)

/-- Concrete stand-in for the external collaborators, used by the closed witness
and counterexample statements: the date parser accepts any string. -/
def extD : Ext :=
  { parseDate := fun v =>
      match v with
      | Value.str _ =>
          Except.ok { year := 2020, month := 1, day := 2, hour := 3, minute := 4, second := 5 }
      | _ => Except.error (Exn.TypeErrorE "parse"),
    pyFloat := fun v => Except.ok v,
    fmtF := fun _ => Except.ok "0.000000" }

/-- DESCRIBE rows of a two-column table `Users` (integer primary key, string). -/
def usersRows : List DescRow :=
  [ { name := "Id", typ := "int(11)", null := "NO", key := "PRI",
      default := Value.none, extra := "auto_increment" },
    { name := "Name", typ := "varchar(64)", null := "YES", key := "",
      default := Value.none, extra := "" } ]

/-- Mock driver for the `Users` table: every statement yields one row (Id 1, 'Al'). -/
def dbU : Db :=
  { check := Except.ok (),
    describe := fun _ => Except.ok usersRows,
    exec := fun _ =>
      Except.ok { rows := [[Value.int 1, Value.str "Al"]], lastrowid := 1, rowcount := 1 } }

/-- Inert table used only as the fallback of concrete extraction definitions. -/
def fallbackT : MySQLTable :=
  { META := [], FIELDS := [], TABLENAME := "", PKEY := Option.none, INDEX := Option.none }

/-- Inert record used only as the fallback of concrete extraction definitions. -/
def fallbackR : MySQLRecord :=
  { DATA := [], ODATA := [], INDEX := Option.none, PKEY := Option.none,
    FIELDS := [], META := [] }

/-- The `Users` table as introspected through the mock driver. -/
def usersT : MySQLTable :=
  match MySQLTable.init (some dbU) "Users" with
  | Except.ok t => t
  | Except.error _ => fallbackT

/-- Reading a dict raises nothing exactly when the key is present. -/
theorem dget_ok {β : Type} {l : List (String × β)} {k : String} {b : β} :
    dget l k = Except.ok b ↔ alookup l k = some b := by
  unfold dget
  cases h : alookup l k with
  | none => simp
  | some v => simp

/-- Erasing a key other than the one looked up does not change the lookup. -/
theorem alookup_eraseKeyA {β : Type} (l : List (String × β)) (key k : String)
    (h : ¬ key = k) :
    alookup (eraseKeyA l key) k = alookup l k := by
  induction l with
  | nil => rfl
  | cons hd tl ih =>
    obtain ⟨a, b⟩ := hd
    by_cases hk : a = key
    · subst hk
      simp [eraseKeyA, alookup, h, ih]
    · by_cases hak : a = k
      · subst hak
        simp [eraseKeyA, alookup, hk]
      · simp [eraseKeyA, alookup, hk, hak, ih]

/-- Dict write/read composition: reading back the written key gives the new value,
any other key is untouched. -/
theorem alookup_setAssoc {β : Type} (l : List (String × β)) (key k : String) (v : β) :
    alookup (setAssoc l key v) k = if key = k then some v else alookup l k := by
  unfold setAssoc
  by_cases hk : key = k
  · simp [alookup, hk]
  · simp [alookup, hk, alookup_eraseKeyA l key k hk]

/-- A successful setField only rewrites DATA (to a single-key dict update) and
leaves every other record component alone. -/
theorem setField_ok_frame (ext : Ext) (r : MySQLRecord) (field : String) (value : Value)
    (r' : MySQLRecord) (h : MySQLRecord.setField ext r field value = Except.ok r') :
    r'.ODATA = r.ODATA ∧ r'.INDEX = r.INDEX ∧ r'.PKEY = r.PKEY ∧
    r'.FIELDS = r.FIELDS ∧ r'.META = r.META ∧
    ∃ f v2, r'.DATA = setAssoc r.DATA f v2 := by
  unfold MySQLRecord.setField at h
  split at h
  · exact absurd h (by simp)
  · split at h
    · exact absurd h (by simp)
    · split at h
      · exact absurd h (by simp)
      · split at h
        · rw [Except.ok.injEq] at h
          subst h
          exact ⟨rfl, rfl, rfl, rfl, rfl, _, _, rfl⟩
        · exact absurd h (by simp)

/-- Decomposition of a successful setField on a literal (non-PRIMARY) field name:
the field's metadata exists, the write-time coercion succeeded, the field is
declared, and the result is the single-key DATA update. -/
theorem setField_ok_spec (ext : Ext) (r : MySQLRecord) (f : String) (value : Value)
    (r' : MySQLRecord) (hp : f ≠ "PRIMARY")
    (h : MySQLRecord.setField ext r f value = Except.ok r') :
    ∃ meta v2, alookup r.META f = some meta ∧
      setFieldCoerce ext meta.DataType value = Except.ok v2 ∧
      f ∈ r.FIELDS ∧ r' = { r with DATA := setAssoc r.DATA f v2 } := by
  unfold MySQLRecord.setField at h
  rw [if_neg hp] at h
  split at h
  · rename_i e he
    exact absurd he (by simp)
  · rename_i f0 hf0
    rw [Except.ok.injEq] at hf0
    subst hf0
    split at h
    · exact absurd h (by simp)
    · rename_i meta hmeta
      split at h
      · exact absurd h (by simp)
      · rename_i v2 hv2
        split at h
        · rename_i hmem
          rw [Except.ok.injEq] at h
          subst h
          exact ⟨meta, v2, dget_ok.mp hmeta, hv2, hmem, rfl⟩
        · exact absurd h (by simp)

/-- The defaults loop of __init__ leaves everything but DATA alone and makes every
processed field present in DATA. -/
theorem initDefaults_ok (l : List String) (r r' : MySQLRecord)
    (h : initDefaults l r = Except.ok r') :
    r'.ODATA = r.ODATA ∧ r'.INDEX = r.INDEX ∧ r'.PKEY = r.PKEY ∧
    r'.FIELDS = r.FIELDS ∧ r'.META = r.META ∧
    (∀ k, k ∈ l → (alookup r'.DATA k).isSome) ∧
    (∀ k, (alookup r.DATA k).isSome → (alookup r'.DATA k).isSome) := by
  induction l generalizing r with
  | nil =>
    simp only [initDefaults, Except.ok.injEq] at h
    subst h
    exact ⟨rfl, rfl, rfl, rfl, rfl, by simp, fun k hk => hk⟩
  | cons i rest ih =>
    unfold initDefaults at h
    split at h
    · exact absurd h (by simp)
    · rename_i meta hmeta
      obtain ⟨h1, h2, h3, h4, h5, h6, h7⟩ := ih _ h
      have h7' : ∀ k, (alookup (setAssoc r.DATA i meta.Default) k).isSome →
          (alookup r'.DATA k).isSome := h7
      refine ⟨h1, h2, h3, h4, h5, ?_, ?_⟩
      · intro k hk
        rcases List.mem_cons.mp hk with hk | hk
        · subst hk
          apply h7'
          simp [alookup_setAssoc]
        · exact h6 k hk
      · intro k hk
        apply h7'
        rw [alookup_setAssoc]
        split
        · simp
        · exact hk

/-- The seed loop of __init__ leaves everything but DATA alone and never removes a
DATA key. -/
theorem initSeed_ok (ext : Ext) (l : List (String × Value)) (r r' : MySQLRecord)
    (h : initSeed ext l r = Except.ok r') :
    r'.ODATA = r.ODATA ∧ r'.INDEX = r.INDEX ∧ r'.PKEY = r.PKEY ∧
    r'.FIELDS = r.FIELDS ∧ r'.META = r.META ∧
    (∀ k, (alookup r.DATA k).isSome → (alookup r'.DATA k).isSome) := by
  induction l generalizing r with
  | nil =>
    simp only [initSeed, Except.ok.injEq] at h
    subst h
    exact ⟨rfl, rfl, rfl, rfl, rfl, fun k hk => hk⟩
  | cons kv rest ih =>
    unfold initSeed at h
    split at h
    · split at h
      · exact absurd h (by simp)
      · rename_i r2 hset
        obtain ⟨f1, f2, f3, f4, f5, hdata⟩ := setField_ok_frame ext r kv.1 kv.2 r2 hset
        obtain ⟨h1, h2, h3, h4, h5, h6⟩ := ih _ h
        refine ⟨h1.trans f1, h2.trans f2, h3.trans f3, h4.trans f4, h5.trans f5, ?_⟩
        intro k hk
        apply h6
        obtain ⟨f, v2, hd⟩ := hdata
        rw [hd, alookup_setAssoc]
        split
        · simp
        · exact hk
    · obtain ⟨h1, h2, h3, h4, h5, h6⟩ := ih _ h
      exact ⟨h1, h2, h3, h4, h5, h6⟩

/-- The __sync loop copies DATA onto ODATA at the processed keys and keeps all
other components. -/
theorem syncAux_ok (l : List String) (r r' : MySQLRecord)
    (h : syncAux l r = Except.ok r') :
    r'.DATA = r.DATA ∧ r'.INDEX = r.INDEX ∧ r'.PKEY = r.PKEY ∧
    r'.FIELDS = r.FIELDS ∧ r'.META = r.META ∧
    (∀ k, alookup r'.ODATA k =
      if k ∈ l then alookup r.DATA k else alookup r.ODATA k) := by
  induction l generalizing r with
  | nil =>
    simp only [syncAux, Except.ok.injEq] at h
    subst h
    exact ⟨rfl, rfl, rfl, rfl, rfl, by simp⟩
  | cons i rest ih =>
    unfold syncAux at h
    split at h
    · exact absurd h (by simp)
    · rename_i v hv
      have hlv : alookup r.DATA i = some v := dget_ok.mp hv
      obtain ⟨h1, h2, h3, h4, h5, h6⟩ := ih _ h
      have h1' : r'.DATA = r.DATA := h1
      have h6' : ∀ k, alookup r'.ODATA k =
          if k ∈ rest then alookup r.DATA k else alookup (setAssoc r.ODATA i v) k := h6
      refine ⟨h1', h2, h3, h4, h5, ?_⟩
      intro k
      have hk := h6' k
      by_cases hmem : k ∈ rest
      · simp only [hmem, if_true] at hk
        rw [hk]
        simp [List.mem_cons, hmem]
      · simp only [hmem, if_false] at hk
        rw [hk, alookup_setAssoc]
        by_cases hik : i = k
        · subst hik
          simp [hlv]
        · have hki : ¬ (k = i) := fun e => hik e.symm
          simp [List.mem_cons, hki, hmem, hik]

/-- Unfolding equation of the isModified loop at a cons cell. -/
theorem isModifiedAux_cons (r : MySQLRecord) (i : String) (rest : List String) :
    isModifiedAux r (i :: rest) =
      match dget r.DATA i, dget r.ODATA i with
      | Except.ok d, Except.ok o =>
          if d ≠ o then Except.ok true else isModifiedAux r rest
      | Except.error e, _ => Except.error e
      | _, Except.error e => Except.error e := rfl

/-- Unfolding equation of the changes loop at a cons cell. -/
theorem changesAux_cons (ext : Ext) (r : MySQLRecord)
    (datarep : Option MySQLType.Representation) (i : String) (rest : List String) :
    changesAux ext r datarep (i :: rest) =
      match dget r.DATA i, dget r.ODATA i with
      | Except.ok d, Except.ok o =>
          if d ≠ o then
            match MySQLRecord.getField ext r i datarep Value.none with
            | Except.error e => Except.error e
            | Except.ok v =>
              match changesAux ext r datarep rest with
              | Except.error e => Except.error e
              | Except.ok res => Except.ok ((i, v) :: res)
          else changesAux ext r datarep rest
      | Except.error e, _ => Except.error e
      | _, Except.error e => Except.error e := rfl

/-- isModified scans to false over fields whose current and baseline entries are
present and equal. -/
theorem isModifiedAux_false (r : MySQLRecord) (l : List String)
    (h : ∀ i ∈ l, (alookup r.DATA i).isSome ∧ alookup r.ODATA i = alookup r.DATA i) :
    isModifiedAux r l = Except.ok false := by
  induction l with
  | nil => rfl
  | cons i rest ih =>
    obtain ⟨hsome, heq⟩ := h i (List.mem_cons_self i rest)
    obtain ⟨v, hv⟩ := Option.isSome_iff_exists.mp hsome
    have e1 : dget r.DATA i = Except.ok v := dget_ok.mpr hv
    have e2 : dget r.ODATA i = Except.ok v := dget_ok.mpr (heq.trans hv)
    rw [isModifiedAux_cons r i rest, e1, e2]
    show (if v ≠ v then Except.ok true else isModifiedAux r rest) = Except.ok false
    rw [if_neg (fun hne : v ≠ v => hne rfl)]
    exact ih (fun j hj => h j (List.mem_cons_of_mem i hj))

/-- changes is empty over fields whose current and baseline entries are present
and equal. -/
theorem changesAux_nil (ext : Ext) (r : MySQLRecord)
    (datarep : Option MySQLType.Representation) (l : List String)
    (h : ∀ i ∈ l, (alookup r.DATA i).isSome ∧ alookup r.ODATA i = alookup r.DATA i) :
    changesAux ext r datarep l = Except.ok [] := by
  induction l with
  | nil => rfl
  | cons i rest ih =>
    obtain ⟨hsome, heq⟩ := h i (List.mem_cons_self i rest)
    obtain ⟨v, hv⟩ := Option.isSome_iff_exists.mp hsome
    have e1 : dget r.DATA i = Except.ok v := dget_ok.mpr hv
    have e2 : dget r.ODATA i = Except.ok v := dget_ok.mpr (heq.trans hv)
    rw [changesAux_cons ext r datarep i rest, e1, e2]
    show (if v ≠ v then _ else changesAux ext r datarep rest) = Except.ok []
    rw [if_neg (fun hne : v ≠ v => hne rfl)]
    exact ih (fun j hj => h j (List.mem_cons_of_mem i hj))

/-- C6: for every record that MySQLRecord.__init__ successfully constructs — both
the result-row path (full data, identity present) and Table.create (seed data,
identity absent) go through it — isModified() is false and changes() is the empty
mapping immediately after construction, because __sync re-captures the baseline
as the final step of __init__. -/
theorem claim_C6_fresh_record_unmodified (ext : Ext) (t : MySQLTable)
    (data : List (String × Value)) (index : Option Value) (r : MySQLRecord)
    (h : MySQLRecord.init ext t data index = Except.ok r) :
    MySQLRecord.isModified r = Except.ok false ∧
    MySQLRecord.changes ext r Option.none = Except.ok [] := by
  simp only [MySQLRecord.init] at h
  split at h
  · exact absurd h (by simp)
  · rename_i r1 hdef
    split at h
    · exact absurd h (by simp)
    · rename_i r2 hseed
      obtain ⟨d1, d2, d3, d4, d5, d6, d7⟩ := initDefaults_ok _ _ _ hdef
      obtain ⟨s1, s2, s3, s4, s5, s6⟩ := initSeed_ok _ _ _ _ hseed
      unfold MySQLRecord.sync at h
      obtain ⟨y1, y2, y3, y4, y5, y6⟩ := syncAux_ok _ _ _ h
      have hfields : r.FIELDS = t.FIELDS := by
        rw [y4, s4, d4]
      have hprop : ∀ i ∈ r.FIELDS,
          (alookup r.DATA i).isSome ∧ alookup r.ODATA i = alookup r.DATA i := by
        intro i hi
        have hit : i ∈ t.FIELDS := by rwa [hfields] at hi
        have hi2 : i ∈ r2.FIELDS := by rw [s4, d4]; exact hit
        have hsome2 : (alookup r2.DATA i).isSome := s6 i (d6 i hit)
        constructor
        · rw [y1]; exact hsome2
        · rw [y6 i, y1]
          simp [hi2]
      constructor
      · exact isModifiedAux_false r r.FIELDS hprop
      · exact changesAux_nil ext r Option.none r.FIELDS hprop

/-- Concrete record built from a full result row of the `Users` table. -/
def rU6 : MySQLRecord :=
  match MySQLRecord.init extD usersT [("Id", Value.int 1), ("Name", Value.str "Al")]
      (some (Value.int 1)) with
  | Except.ok r => r
  | Except.error _ => fallbackR

/-- Witness for C6 at a concrete full-row construction. -/
theorem claim_C6_fresh_record_unmodified_witness :
    MySQLRecord.init extD usersT [("Id", Value.int 1), ("Name", Value.str "Al")]
      (some (Value.int 1)) = Except.ok rU6 ∧
    MySQLRecord.isModified rU6 = Except.ok false ∧
    MySQLRecord.changes extD rU6 Option.none = Except.ok [] :=
  ⟨by decide,
   (claim_C6_fresh_record_unmodified extD usersT
      [("Id", Value.int 1), ("Name", Value.str "Al")] (some (Value.int 1)) rU6
      (by decide)).1,
   (claim_C6_fresh_record_unmodified extD usersT
      [("Id", Value.int 1), ("Name", Value.str "Al")] (some (Value.int 1)) rU6
      (by decide)).2⟩

/-- Inert metadata used only as the fallback of concrete extraction definitions. -/
def fallbackM : FieldMeta :=
  { Typ := "", DataType := MySQLType.Field.UNKNOWN, Null := "", Key := "",
    Default := Value.none, Extra := "" }

/-- DESCRIBE rows of a five-column table exercising every field type, including a
column whose declared type matches no classification rule. -/
def typesRows : List DescRow :=
  [ { name := "Id", typ := "int(11)", null := "NO", key := "PRI",
      default := Value.none, extra := "auto_increment" },
    { name := "Payload", typ := "binary(16)", null := "YES", key := "",
      default := Value.none, extra := "" },
    { name := "Created", typ := "datetime", null := "YES", key := "",
      default := Value.none, extra := "" },
    { name := "Tag", typ := "varchar(32)", null := "YES", key := "",
      default := Value.none, extra := "" },
    { name := "Weird", typ := "geometry", null := "YES", key := "",
      default := Value.none, extra := "" } ]

/-- Mock driver for the five-column table. -/
def dbT : Db :=
  { check := Except.ok (),
    describe := fun _ => Except.ok typesRows,
    exec := fun _ => Except.ok { rows := [], lastrowid := 0, rowcount := 1 } }

/-- The five-column table as introspected through the mock driver. -/
def typesT : MySQLTable :=
  match MySQLTable.init (some dbT) "Things" with
  | Except.ok t => t
  | Except.error _ => fallbackT

/-- A fresh record of the five-column table. -/
def typesR : MySQLRecord :=
  match MySQLTable.create extD typesT [] with
  | Except.ok r => r
  | Except.error _ => fallbackR

/-- Metadata of the Created column, extracted from the introspected record. -/
def metaCreated : FieldMeta :=
  match alookup typesR.META "Created" with
  | some m => m
  | Option.none => fallbackM

/-- Metadata of the Weird column, extracted from the introspected record. -/
def metaWeird : FieldMeta :=
  match alookup typesR.META "Weird" with
  | some m => m
  | Option.none => fallbackM

/-- C2 (amended): for every declared field, formatting a null internal value
yields the literal string 'NULL' at the Wire representation, and the External
representation yields that same literal string 'NULL' (not an absent value): in
both formatters the None check precedes and bypasses the per-type rule. -/
theorem claim_C2_null_formats_as_NULL_text (ext : Ext) (r : MySQLRecord)
    (field : String) (meta : FieldMeta) (h : alookup r.META field = some meta) :
    mysqlFieldFormatter ext r field Value.none = Except.ok (Value.str "NULL") ∧
    externalFieldFormatter ext r field Value.none = Except.ok (Value.str "NULL") := by
  unfold mysqlFieldFormatter externalFieldFormatter
  rw [show dget r.META field = Except.ok meta from dget_ok.mpr h]
  exact ⟨rfl, rfl⟩

/-- Witness for C2 at the Created column of the concrete table. -/
theorem claim_C2_null_formats_as_NULL_text_witness :
    alookup typesR.META "Created" = some metaCreated ∧
    mysqlFieldFormatter extD typesR "Created" Value.none = Except.ok (Value.str "NULL") ∧
    externalFieldFormatter extD typesR "Created" Value.none = Except.ok (Value.str "NULL") :=
  ⟨by decide,
   (claim_C2_null_formats_as_NULL_text extD typesR "Created" metaCreated (by decide)).1,
   (claim_C2_null_formats_as_NULL_text extD typesR "Created" metaCreated (by decide)).2⟩

/-- Counterexample for C2 as stated: the External conversion of a null value is
the SQL text 'NULL', not an absent/null external value. -/
theorem claim_C2_counterexample :
    externalFieldFormatter extD typesR "Created" Value.none = Except.ok (Value.str "NULL") ∧
    Value.str "NULL" ≠ Value.none := by
  constructor
  · decide
  · decide

/-- C3: reading an undeclared field raises the module's 'Field ... is not defined'
MySQLException, but writing one raises KeyError out of the DataType lookup that
precedes the membership check (the intended field-error raise names the undefined
class AttributeException and is unreachable); the failed write leaves the record
untouched (the error precedes the DATA assignment). -/
theorem claim_C3_undeclared_field_access :
    MySQLRecord.getField extD typesR "Ghost" Option.none Value.none =
      Except.error (Exn.MySQLException "Field Ghost is not defined") ∧
    MySQLRecord.setField extD typesR "Ghost" (Value.int 1) =
      Except.error (Exn.KeyErrorE "Ghost") := by
  constructor
  · decide
  · decide

/-- C4 (amended): table construction raises the 'No Database Connection'
MySQLException only when no database object is supplied; a reachable description
with zero columns constructs successfully, yielding a table with an empty field
set and no primary key (no SchemaError is raised for zero described columns). -/
theorem claim_C4_zero_columns_construct (db : Db) (tn : String)
    (hc : db.check = Except.ok ())
    (hd : db.describe ("DESCRIBE `" ++ tn ++ "`") = Except.ok []) :
    MySQLTable.init Option.none tn =
      Except.error (Exn.MySQLException "No Database Connection") ∧
    MySQLTable.init (some db) tn =
      Except.ok { META := [], FIELDS := [], TABLENAME := tn,
                  PKEY := Option.none, INDEX := Option.none } := by
  constructor
  · rfl
  · unfold MySQLTable.init
    simp only [hc, hd, List.foldl_nil]

/-- Mock driver whose DESCRIBE result is empty. -/
def dbEmpty : Db :=
  { check := Except.ok (),
    describe := fun _ => Except.ok [],
    exec := fun _ => Except.ok { rows := [], lastrowid := 0, rowcount := 0 } }

/-- Witness for C4 (amended) at a concrete empty description. -/
theorem claim_C4_zero_columns_construct_witness :
    MySQLTable.init Option.none "Nada" =
      Except.error (Exn.MySQLException "No Database Connection") ∧
    MySQLTable.init (some dbEmpty) "Nada" =
      Except.ok { META := [], FIELDS := [], TABLENAME := "Nada",
                  PKEY := Option.none, INDEX := Option.none } :=
  claim_C4_zero_columns_construct dbEmpty "Nada" (by rfl) (by rfl)

/-- Counterexample for C4 as stated: a zero-column description does not fail with
SchemaError; construction succeeds with an empty field set. -/
theorem claim_C4_counterexample :
    MySQLTable.init (some dbEmpty) "Empty" =
      Except.ok { META := [], FIELDS := [], TABLENAME := "Empty",
                  PKEY := Option.none, INDEX := Option.none } := by
  decide

/-- C8: a declared type matching no classification rule maps to the Unknown
sentinel; a Wire conversion of a non-null value of such a field raises the
intended TypeError, but the External conversion raises NameError instead, because
the message expression at src/ohmy.py:153 references the undefined bare name META
before the TypeError can be raised. -/
theorem claim_C8_unknown_type_conversion (s : String)
    (h1 : startsWithP s "binary" = false)
    (h2 : startsWithP s "datetime" = false)
    (h3 : (["smallint", "int", "tinyint", "mediumint", "bigint"].any
        (fun p => startsWithP s p)) = false)
    (h4 : (["number", "decimal", "float", "double"].any
        (fun p => startsWithP s p)) = false)
    (h5 : (["text", "char", "blob", "varchar", "string"].any
        (fun p => startsWithP s p)) = false) :
    getInternalFieldType s = MySQLType.Field.UNKNOWN ∧
    (∀ (ext : Ext) (r : MySQLRecord) (field : String) (meta : FieldMeta) (v : Value),
      alookup r.META field = some meta →
      meta.DataType = MySQLType.Field.UNKNOWN →
      v ≠ Value.none →
      mysqlFieldFormatter ext r field v =
        Except.error (Exn.TypeErrorE ("Unknown Field Type " ++ meta.Typ)) ∧
      externalFieldFormatter ext r field v =
        Except.error (Exn.NameErrorE "META")) := by
  constructor
  · simp [getInternalFieldType, h1, h2, h3, h4, h5]
  · intro ext r field meta v hmeta hdt hv
    constructor
    · unfold mysqlFieldFormatter
      rw [show dget r.META field = Except.ok meta from dget_ok.mpr hmeta]
      simp [hv, hdt]
    · unfold externalFieldFormatter
      rw [show dget r.META field = Except.ok meta from dget_ok.mpr hmeta]
      simp [hv, hdt]

/-- Witness for C8 at the geometry-typed column of the concrete table. -/
theorem claim_C8_unknown_type_conversion_witness :
    getInternalFieldType "geometry" = MySQLType.Field.UNKNOWN ∧
    mysqlFieldFormatter extD typesR "Weird" (Value.int 3) =
      Except.error (Exn.TypeErrorE "Unknown Field Type geometry") ∧
    externalFieldFormatter extD typesR "Weird" (Value.int 3) =
      Except.error (Exn.NameErrorE "META") :=
  ⟨(claim_C8_unknown_type_conversion "geometry" (by decide) (by decide) (by decide)
      (by decide) (by decide)).1,
   ((claim_C8_unknown_type_conversion "geometry" (by decide) (by decide) (by decide)
      (by decide) (by decide)).2 extD typesR "Weird" metaWeird (Value.int 3)
      (by decide) (by decide) (by decide)).1,
   ((claim_C8_unknown_type_conversion "geometry" (by decide) (by decide) (by decide)
      (by decide) (by decide)).2 extD typesR "Weird" metaWeird (Value.int 3)
      (by decide) (by decide) (by decide)).2⟩

/-- C9: the LIMIT fragment of a single count n is 'LIMIT n' and of a missing
argument is empty, but a two-element offset/count list raises TypeError: the
source's guard `type(data) == 'list'` compares a type object with the string
'list' and is constantly false, so the two-element branch is dead and the list
reaches the `%d` conversion. -/
theorem claim_C9_limit_fragment :
    (∀ n : Int, limitString (some (LimitArg.single n)) =
      Except.ok ("LIMIT " ++ toString n)) ∧
    limitString Option.none = Except.ok "" ∧
    (∀ a b : Int, limitString (some (LimitArg.pair a b)) =
      Except.error (Exn.TypeErrorE "%d format: a number is required, not list")) :=
  ⟨fun n => rfl, rfl, fun a b => rfl⟩

/-- A concrete record after writing a record-layer string into the varchar field. -/
def rTag : MySQLRecord :=
  match MySQLRecord.setField extD typesR "Tag" (Value.str "x") with
  | Except.ok r => r
  | Except.error _ => fallbackR

/-- Metadata of the Tag column, extracted from the introspected record. -/
def metaTag : FieldMeta :=
  match alookup typesR.META "Tag" with
  | some m => m
  | Option.none => fallbackM

/-- A concrete record after writing a 36-character UUID literal string into the
binary field: under Python 2 the string is already `bytes`, so it is stored
unchanged and never parsed by `uuid.UUID`. -/
def rPay : MySQLRecord :=
  match MySQLRecord.setField extD typesR "Payload"
      (Value.str "12345678-1234-5678-1234-567812345678") with
  | Except.ok r => r
  | Except.error _ => fallbackR

/-- C7: a value accepted by setField reads back via get(f, Internal) as exactly the
write-time normalization `setFieldCoerce`; that normalization parses a non-datetime
value through dateutil for DateTime fields and leaves non-DateTime/non-Binary
values unchanged, but for Binary fields a Python 2 str passes the
`isinstance(value, bytes)` test and is stored unchanged — the UUID-literal branch
is dead — while an int becomes its `bin` string and a uuid.UUID object its 16-byte
form. The final clauses evaluate the failing input: the 36-character UUID literal
string round-trips to itself, not to its 16-byte form. -/
theorem claim_C7_internal_roundtrip :
    (∀ (ext : Ext) (r : MySQLRecord) (f : String) (v : Value) (meta : FieldMeta)
       (r' : MySQLRecord),
      f ≠ "PRIMARY" → alookup r.META f = some meta →
      MySQLRecord.setField ext r f v = Except.ok r' →
      ∃ v2, setFieldCoerce ext meta.DataType v = Except.ok v2 ∧
        MySQLRecord.getField ext r' f Option.none Value.none = Except.ok v2) ∧
    (∀ (ext : Ext) (s : String),
      setFieldCoerce ext MySQLType.Field.BINARY (Value.str s) = Except.ok (Value.str s)) ∧
    (∀ (ext : Ext) (n : Int),
      setFieldCoerce ext MySQLType.Field.BINARY (Value.int n) =
        Except.ok (Value.str (pybin n))) ∧
    (∀ (ext : Ext) (b : String),
      setFieldCoerce ext MySQLType.Field.BINARY (Value.uuidv b) = Except.ok (Value.str b)) ∧
    (∀ (ext : Ext) (s : String),
      setFieldCoerce ext MySQLType.Field.DATETIME (Value.str s) =
        match ext.parseDate (Value.str s) with
        | Except.ok d => Except.ok (Value.datetime d)
        | Except.error e => Except.error e) ∧
    (∀ (ext : Ext) (d : PyDateTime),
      setFieldCoerce ext MySQLType.Field.DATETIME (Value.datetime d) =
        Except.ok (Value.datetime d)) ∧
    (∀ (ext : Ext) (v : Value) (ft : MySQLType.Field),
      ft ≠ MySQLType.Field.DATETIME → ft ≠ MySQLType.Field.BINARY →
      setFieldCoerce ext ft v = Except.ok v) ∧
    (MySQLRecord.setField extD typesR "Payload"
        (Value.str "12345678-1234-5678-1234-567812345678") = Except.ok rPay ∧
      MySQLRecord.getField extD rPay "Payload" Option.none Value.none =
        Except.ok (Value.str "12345678-1234-5678-1234-567812345678")) := by
  refine ⟨?_, fun ext s => rfl, fun ext n => rfl, fun ext b => rfl, fun ext s => rfl,
    fun ext d => rfl, ?_, by decide, by decide⟩
  · intro ext r f v meta r' hp hmeta hset
    obtain ⟨meta2, v2, hmeta2, hcoe2, hmem2, heq⟩ := setField_ok_spec ext r f v r' hp hset
    have hm : meta2 = meta := by
      rw [hmeta] at hmeta2
      exact ((Option.some.injEq _ _).mp hmeta2).symm
    subst hm
    refine ⟨v2, hcoe2, ?_⟩
    subst heq
    simp [MySQLRecord.getField, hp, hmem2, dget, alookup_setAssoc,
      determineDataRepresentation]
  · intro ext v ft h1 h2
    cases ft
    · rfl
    · rfl
    · exact absurd rfl h1
    · rfl
    · exact absurd rfl h2
    · rfl

/-- Witness for C7 at the varchar field of the concrete table. -/
theorem claim_C7_internal_roundtrip_witness :
    MySQLRecord.setField extD typesR "Tag" (Value.str "x") = Except.ok rTag ∧
    (∃ v2, setFieldCoerce extD metaTag.DataType (Value.str "x") = Except.ok v2 ∧
      MySQLRecord.getField extD rTag "Tag" Option.none Value.none = Except.ok v2) :=
  ⟨by decide,
   claim_C7_internal_roundtrip.1 extD typesR "Tag" (Value.str "x") metaTag rTag
     (by decide) (by decide) (by decide)⟩

/-- Whether an embedded computation succeeded. -/
def isOkE {α : Type} : Except Exn α → Bool
  | Except.ok _ => true
  | Except.error _ => false

/-- List indexing hits only list members. -/
theorem getq_mem {α : Type} : ∀ {l : List α} {n : Nat} {a : α},
    l.get? n = some a → a ∈ l := by
  intro l
  induction l with
  | nil => intro n a h; cases h
  | cons x xs ih =>
    intro n a h
    cases n with
    | zero =>
      simp only [List.get?] at h
      rw [Option.some.injEq] at h
      subst h
      exact List.mem_cons_self x xs
    | succ m =>
      exact List.mem_cons_of_mem x (ih h)

/-- Every key of the positional row mapping comes from the accumulator or from the
requested field list. -/
theorem mapColumnsToKeysAux_keys (fields : List String) (row : List Value) :
    ∀ (c : Nat) (acc d : List (String × Value)),
      mapColumnsToKeysAux fields row c acc = Except.ok d →
      ∀ k, (alookup d k).isSome → (alookup acc k).isSome ∨ k ∈ fields := by
  induction row with
  | nil =>
    intro c acc d h k hk
    simp only [mapColumnsToKeysAux, Except.ok.injEq] at h
    subst h
    exact Or.inl hk
  | cons v rest ih =>
    intro c acc d h k hk
    unfold mapColumnsToKeysAux at h
    split at h
    · rename_i f hf
      rcases ih (c + 1) (setAssoc acc f v) d h k hk with hcase | hcase
      · rw [alookup_setAssoc] at hcase
        by_cases hfk : f = k
        · subst hfk
          exact Or.inr (getq_mem hf)
        · rw [if_neg hfk] at hcase
          exact Or.inl hcase
      · exact Or.inr hcase
    · exact absurd h (by simp)

/-- Mapping at least one result row fails whenever the primary-key name is not
among the selected fields. -/
theorem mapResult_no_pkey (ext : Ext) (t : MySQLTable) (fields : List String)
    (row : List Value) (rest : List (List Value)) (p : String)
    (hp : t.PKEY = some p) (hnp : p ∉ fields) :
    isOkE (mapResultToRecordSet ext t fields (row :: rest)) = false := by
  unfold mapResultToRecordSet
  cases hm : mapColumnsToKeys fields row with
  | error e => rfl
  | ok rowDict =>
    have hnone : alookup rowDict p = Option.none := by
      cases hs : alookup rowDict p with
      | none => rfl
      | some v =>
        exfalso
        have hsome : (alookup rowDict p).isSome := by rw [hs]; rfl
        rcases mapColumnsToKeysAux_keys fields row 0 [] rowDict hm p hsome with h' | h'
        · simp [alookup] at h'
        · exact hnp h'
    simp [hp, dget, hnone, isOkE]

/-- Successful execution decomposed: the driver returned a cursor, and the table
is unchanged unless the insert flag captured lastrowid. -/
theorem execStmt_ok (t : MySQLTable) (db : Db) (stmt : String) (ins : Bool)
    (cur : Cursor) (t2 : MySQLTable)
    (h : execStmt t db stmt ins = Except.ok (cur, t2)) :
    t2 = (if ins then { t with INDEX := some cur.lastrowid } else t) ∧
    db.exec stmt = Except.ok cur := by
  unfold execStmt at h
  split at h
  · exact absurd h (by simp)
  · split at h
    · exact absurd h (by simp)
    · rename_i cur2 hexec
      rw [Except.ok.injEq, Prod.ext_iff] at h
      obtain ⟨hc, ht⟩ := h
      subst hc
      exact ⟨ht.symm, hexec⟩

/-- Successful select decomposed: the table is returned unchanged and the mapped
rows are the cursor's rows mapped over the requested fields. -/
theorem select_ok (ext : Ext) (t : MySQLTable) (db : Db) (fields : Option (List String))
    (whereA : Option WhereArg) (order : Option OrderArg) (group : Option String)
    (joinA : Option String) (limit : Option LimitArg) (t2 : MySQLTable)
    (recs : List MySQLRecord)
    (h : MySQLTable.select ext t db fields whereA order group joinA limit =
      Except.ok (t2, recs)) :
    t2 = t ∧ ∃ cur stmt, db.exec stmt = Except.ok cur ∧
      mapResultToRecordSet ext t (fields.getD t.FIELDS) cur.rows = Except.ok recs := by
  simp only [MySQLTable.select] at h
  split at h
  · exact absurd h (by simp)
  · split at h
    · exact absurd h (by simp)
    · split at h
      · exact absurd h (by simp)
      · split at h
        · exact absurd h (by simp)
        · rename_i x cur t3 hexec
          obtain ⟨ht3, hdb⟩ := execStmt_ok _ _ _ _ _ _ hexec
          rw [if_neg (by simp)] at ht3
          subst ht3
          split at h
          · exact absurd h (by simp)
          · rename_i recs2 hmap
            rw [Except.ok.injEq, Prod.ext_iff] at h
            obtain ⟨h1, h2⟩ := h
            subst h1
            subst h2
            exact ⟨rfl, cur, _, hdb, hmap⟩

/-- The primary key recorded by the DESCRIBE fold is always one of the recorded
field names. -/
theorem foldl_initStep_pkey (rows : List DescRow) :
    ∀ (t0 : MySQLTable), (∀ p, t0.PKEY = some p → p ∈ t0.FIELDS) →
      ∀ p, (rows.foldl initStep t0).PKEY = some p →
        p ∈ (rows.foldl initStep t0).FIELDS := by
  induction rows with
  | nil => intro t0 h0 p hp; exact h0 p hp
  | cons row rest ih =>
    intro t0 h0 p hp
    rw [List.foldl_cons] at hp ⊢
    refine ih (initStep t0 row) ?_ p hp
    intro q hq
    simp only [initStep] at hq ⊢
    by_cases hk : row.key = "PRI"
    · rw [if_pos hk, Option.some.injEq] at hq
      subst hq
      simp [List.mem_append]
    · rw [if_neg hk] at hq
      have hmem := h0 q hq
      simp [List.mem_append, hmem]

/-- C10: the result mapping of select reads each row's identity at the primary-key
name, so with at least one returned row the mapping fails whenever the explicit
fields argument omits the primary key; consequently a select over such a fields
list can only succeed with an empty result; and the default all-fields selection
always contains the primary key, because introspection records the primary key as
one of the field names. -/
theorem claim_C10_select_requires_pkey :
    (∀ (ext : Ext) (t : MySQLTable) (fields : List String) (row : List Value)
       (rest : List (List Value)) (p : String),
      t.PKEY = some p → p ∉ fields →
      isOkE (mapResultToRecordSet ext t fields (row :: rest)) = false) ∧
    (∀ (ext : Ext) (t : MySQLTable) (db : Db) (fields : List String)
       (whereA : Option WhereArg) (order : Option OrderArg) (group : Option String)
       (joinA : Option String) (limit : Option LimitArg) (t2 : MySQLTable)
       (recs : List MySQLRecord) (p : String),
      t.PKEY = some p → p ∉ fields →
      MySQLTable.select ext t db (some fields) whereA order group joinA limit =
        Except.ok (t2, recs) →
      recs = []) ∧
    (∀ (db : Db) (tn : String) (t : MySQLTable) (p : String),
      MySQLTable.init (some db) tn = Except.ok t → t.PKEY = some p →
      p ∈ t.FIELDS) := by
  refine ⟨?_, ?_, ?_⟩
  · intro ext t fields row rest p hp hnp
    exact mapResult_no_pkey ext t fields row rest p hp hnp
  · intro ext t db fields whereA order group joinA limit t2 recs p hp hnp h
    obtain ⟨ht2, cur, stmt, hdb, hmap⟩ := select_ok _ _ _ _ _ _ _ _ _ _ _ h
    cases hrows : cur.rows with
    | nil =>
      rw [hrows] at hmap
      simp only [mapResultToRecordSet, Except.ok.injEq] at hmap
      exact hmap.symm
    | cons row rest2 =>
      exfalso
      rw [hrows] at hmap
      have hfail := mapResult_no_pkey ext t ((some fields : Option (List String)).getD t.FIELDS)
        row rest2 p hp (by simpa using hnp)
      rw [hmap] at hfail
      exact absurd hfail (by simp [isOkE])
  · intro db tn t p h hp
    unfold MySQLTable.init at h
    split at h
    · exact absurd h (by simp)
    · split at h
      · exact absurd h (by simp)
      · split at h
        · exact absurd h (by simp)
        · rename_i res hres
          rw [Except.ok.injEq] at h
          subst h
          exact foldl_initStep_pkey res _ (fun q hq => absurd hq (by simp)) p hp

/-- Witness for C10: mapping a one-row result over a fields list without the
primary key fails, and the introspected primary key of the concrete table is one
of its fields. -/
theorem claim_C10_select_requires_pkey_witness :
    isOkE (mapResultToRecordSet extD usersT ["Name"] [[Value.str "Al"]]) = false ∧
    ("Id" : String) ∈ usersT.FIELDS :=
  ⟨claim_C10_select_requires_pkey.1 extD usersT ["Name"] [Value.str "Al"] [] "Id"
     (by decide) (by decide),
   claim_C10_select_requires_pkey.2.2 dbU "Users" usersT "Id" (by decide) (by decide)⟩

/-- A successfully constructed record carries exactly the identity it was given. -/
theorem init_ok_index (ext : Ext) (t : MySQLTable) (data : List (String × Value))
    (idx : Option Value) (r : MySQLRecord)
    (h : MySQLRecord.init ext t data idx = Except.ok r) : r.INDEX = idx := by
  simp only [MySQLRecord.init] at h
  split at h
  · exact absurd h (by simp)
  · rename_i r1 hdef
    split at h
    · exact absurd h (by simp)
    · rename_i r2 hseed
      obtain ⟨_, d2, _, _, _, _, _⟩ := initDefaults_ok _ _ _ hdef
      obtain ⟨_, s2, _, _, _, _⟩ := initSeed_ok _ _ _ _ hseed
      obtain ⟨_, y2, _, _, _, _⟩ := syncAux_ok _ _ _ h
      exact y2.trans (s2.trans d2)

/-- C5: get returns the sole mapped record when the select produced exactly one
row; with any other row count it returns a fresh create() (whose identity is
absent) when createIfNone is set, raises the 'ID Mismatch' MySQLException (the
spec's NotFoundError) when failIfNone is set, and returns None otherwise — more
than one row takes the same fall-through as zero. -/
theorem claim_C5_get_branches (ext : Ext) (t : MySQLTable) (db : Db) (pkey : Value)
    (key : Option String) (kf : String) (tr : MySQLRecord) (w : Value)
    (t2 : MySQLTable) (recs : List MySQLRecord)
    (hk : getKeyName t key = some kf)
    (h1 : MySQLTable.create ext t [] = Except.ok tr)
    (h2 : MySQLRecord.getField ext tr kf (some MySQLType.Representation.MYSQL) pkey =
      Except.ok w)
    (h3 : MySQLTable.select ext t db Option.none
      (some (WhereArg.listW ["`" ++ kf ++ "` = " ++ pyStrFn w]))
      Option.none Option.none Option.none Option.none = Except.ok (t2, recs)) :
    (∀ r, recs = [r] → ∀ (createIfNone failIfNone : Bool),
      MySQLTable.get ext t db pkey key createIfNone failIfNone =
        Except.ok (t2, some r)) ∧
    (recs.length ≠ 1 →
      (∀ failIfNone, MySQLTable.get ext t db pkey key true failIfNone =
        Except.ok (t2, some tr)) ∧ tr.INDEX = Option.none) ∧
    (recs.length ≠ 1 →
      MySQLTable.get ext t db pkey key false true =
        Except.error (Exn.MySQLException "ID Mismatch")) ∧
    (recs.length ≠ 1 →
      MySQLTable.get ext t db pkey key false false = Except.ok (t2, Option.none)) := by
  refine ⟨?_, ?_, ?_, ?_⟩
  · intro r hr c f
    subst hr
    simp [MySQLTable.get, h1, hk, h2, h3]
  · intro hlen
    constructor
    · intro f
      match recs, hlen with
      | [], _ => simp [MySQLTable.get, h1, hk, h2, h3]
      | a :: b :: l, _ => simp [MySQLTable.get, h1, hk, h2, h3]
      | [a], hlen => exact absurd rfl hlen
    · exact init_ok_index ext t [] Option.none tr h1
  · intro hlen
    match recs, hlen with
    | [], _ => simp [MySQLTable.get, h1, hk, h2, h3]
    | a :: b :: l, _ => simp [MySQLTable.get, h1, hk, h2, h3]
    | [a], hlen => exact absurd rfl hlen
  · intro hlen
    match recs, hlen with
    | [], _ => simp [MySQLTable.get, h1, hk, h2, h3]
    | a :: b :: l, _ => simp [MySQLTable.get, h1, hk, h2, h3]
    | [a], hlen => exact absurd rfl hlen

/-- The fresh record created on the `Users` table. -/
def trU : MySQLRecord :=
  match MySQLTable.create extD usersT [] with
  | Except.ok r => r
  | Except.error _ => fallbackR

/-- The single record mapped from the mock driver's one-row result. -/
def recU5 : MySQLRecord :=
  match MySQLTable.select extD usersT dbU Option.none
      (some (WhereArg.listW ["`Id` = 1"]))
      Option.none Option.none Option.none Option.none with
  | Except.ok (_, [r]) => r
  | _ => fallbackR

/-- Witness for C5 at the concrete one-row lookup. -/
theorem claim_C5_get_branches_witness :
    MySQLTable.get extD usersT dbU (Value.int 1) Option.none false true =
      Except.ok (usersT, some recU5) :=
  (claim_C5_get_branches extD usersT dbU (Value.int 1) Option.none "Id" trU
      (Value.int 1) usersT [recU5] (by decide) (by decide) (by decide)
      (by decide)).1 recU5 rfl false true

/-- The update path of MySQLTable.save always returns True when it returns. -/
theorem tableSave_ok_true (ext : Ext) (t : MySQLTable) (db : Db) (r : MySQLRecord)
    (t2 : MySQLTable) (b : Bool)
    (h : MySQLTable.save ext t db r = Except.ok (t2, b)) : b = true := by
  unfold MySQLTable.save at h
  split at h
  · exact absurd h (by simp)
  · split at h
    · exact absurd h (by simp)
    · split at h
      · exact absurd h (by simp)
      · simp only [MySQLTable.update] at h
        split at h
        · exact absurd h (by simp)
        · rw [Except.ok.injEq] at h
          injection h with h1 h2
          exact h2.symm

/-- A successful get leaves the table unchanged (its select runs without the
insert flag). -/
theorem tableGet_ok_table (ext : Ext) (t : MySQLTable) (db : Db) (pkey : Value)
    (key : Option String) (c f : Bool) (t2 : MySQLTable) (x : Option MySQLRecord)
    (h : MySQLTable.get ext t db pkey key c f = Except.ok (t2, x)) : t2 = t := by
  unfold MySQLTable.get at h
  split at h
  · exact absurd h (by simp)
  · split at h
    · exact absurd h (by simp)
    · split at h
      · exact absurd h (by simp)
      · split at h
        · exact absurd h (by simp)
        · rename_i t3 recs hsel
          have hsel' := select_ok _ _ _ _ _ _ _ _ _ _ _ hsel
          split at h
          · rw [Except.ok.injEq] at h
            injection h with h1 h2
            subst h1
            exact hsel'.1
          · split at h
            · split at h
              · exact absurd h (by simp)
              · rw [Except.ok.injEq] at h
                injection h with h1 h2
                subst h1
                exact hsel'.1
            · split at h
              · exact absurd h (by simp)
              · rw [Except.ok.injEq] at h
                injection h with h1 h2
                subst h1
                exact hsel'.1

/-- Successful insert decomposed: the table's primary key exists, the returned
table carries the captured lastrowid as __INDEX, and the returned mutated record
is the original record after setField of that generated key into the primary-key
field. -/
theorem insert_ok_spec (ext : Ext) (t : MySQLTable) (db : Db) (record : MySQLRecord)
    (t3 : MySQLTable) (pr : MySQLRecord × Option MySQLRecord)
    (h : MySQLTable.insert ext t db record = Except.ok (t3, pr)) :
    ∃ p idx, t.PKEY = some p ∧ t3.INDEX = some idx ∧
      MySQLRecord.setField ext record p (Value.int idx) = Except.ok pr.1 := by
  simp only [MySQLTable.insert] at h
  split at h
  · exact absurd h (by simp)
  · split at h
    · exact absurd h (by simp)
    · rename_i x cur t1 hexec
      obtain ⟨ht1, hdb⟩ := execStmt_ok _ _ _ _ _ _ hexec
      rw [if_pos rfl] at ht1
      split at h
      · exact absurd h (by simp)
      · split at h
        · exact absurd h (by simp)
        · rename_i p hpk1
          split at h
          · exact absurd h (by simp)
          · rename_i idx hidx1
            split at h
            · exact absurd h (by simp)
            · rename_i record2 hset
              split at h
              · exact absurd h (by simp)
              · rename_i pk hpkv
                split at h
                · exact absurd h (by simp)
                · rename_i t4 fetched hget
                  have ht4 : t4 = t1 := tableGet_ok_table _ _ _ _ _ _ _ _ _ hget
                  rw [Except.ok.injEq] at h
                  injection h with h1 h2
                  refine ⟨p, idx, ?_, ?_, ?_⟩
                  · rw [ht1] at hpk1
                    exact hpk1
                  · rw [← h1, ht4, hidx1]
                  · rw [← h2]
                    exact hset

/-- C1 (amended): a successful save never resynchronizes the record's baseline.
On the update path the record save was called on is returned exactly as it was
(baseline and current untouched) together with True; on the insert path the
mutated record keeps its old baseline while its primary-key field's current value
is set, via setField's write-time coercion, from the driver-generated key that the
insert captured into the table's __INDEX. (Only the freshly re-selected record the
insert path fetches through get has baseline equal to current, by construction.) -/
theorem claim_C1_save_never_resyncs_baseline (ext : Ext) (t : MySQLTable) (db : Db)
    (r : MySQLRecord) (t2 : MySQLTable) (res : SaveResult)
    (hpk : ∀ q, t.PKEY = some q → q ≠ "PRIMARY")
    (h : MySQLRecord.save ext t db r = Except.ok (t2, res)) :
    (∀ rr b, res = SaveResult.updated rr b → rr = r ∧ b = true) ∧
    (∀ rr fetched, res = SaveResult.inserted rr fetched →
      rr.ODATA = r.ODATA ∧
      ∃ p meta idx v, t.PKEY = some p ∧ alookup r.META p = some meta ∧
        t2.INDEX = some idx ∧
        setFieldCoerce ext meta.DataType (Value.int idx) = Except.ok v ∧
        rr.DATA = setAssoc r.DATA p v) := by
  unfold MySQLRecord.save at h
  split at h
  · -- insert path: r.INDEX = none
    split at h
    · exact absurd h (by simp)
    · rename_i x t3 pr hins
      rw [Except.ok.injEq] at h
      injection h with h1 h2
      subst h1
      constructor
      · intro rr b hres
        rw [← h2] at hres
        exact absurd hres (by simp)
      · intro rr fetched hres
        rw [← h2] at hres
        rw [SaveResult.inserted.injEq] at hres
        obtain ⟨hr1, _⟩ := hres
        obtain ⟨p, idx, hpT, hidx, hset⟩ := insert_ok_spec _ _ _ _ _ _ hins
        rw [hr1] at hset
        obtain ⟨meta, v2, hmeta, hcoe, hmem, heq⟩ :=
          setField_ok_spec ext r p (Value.int idx) rr (hpk p hpT) hset
        constructor
        · rw [heq]
        · exact ⟨p, meta, idx, v2, hpT, hmeta, hidx, hcoe, by rw [heq]⟩
  · -- update path: r.INDEX = some _
    split at h
    · exact absurd h (by simp)
    · rename_i x t3 b hsave
      rw [Except.ok.injEq] at h
      injection h with h1 h2
      subst h1
      constructor
      · intro rr b0 hres
        rw [← h2] at hres
        rw [SaveResult.updated.injEq] at hres
        obtain ⟨hrr, hb⟩ := hres
        refine ⟨hrr.symm, ?_⟩
        rw [← hb]
        exact tableSave_ok_true _ _ _ _ _ _ hsave
      · intro rr fetched hres
        rw [← h2] at hres
        exact absurd hres (by simp)

/-- A stored `Users` record (identity 7) whose Name field was changed from 'Al'
to 'Bob' after construction: a modified record on the update path. -/
def r1C : MySQLRecord :=
  match MySQLRecord.init extD usersT [("Id", Value.int 7), ("Name", Value.str "Al")]
      (some (Value.int 7)) with
  | Except.ok r0 =>
    match MySQLRecord.setField extD r0 "Name" (Value.str "Bob") with
    | Except.ok r1 => r1
    | Except.error _ => fallbackR
  | Except.error _ => fallbackR

/-- Counterexample for C1 as stated: this save() succeeds (update path, returning
True), yet afterwards the record is still modified — its baseline was not
resynchronized to its current values, so changes() is not empty. -/
theorem claim_C1_counterexample :
    MySQLRecord.save extD usersT dbU r1C =
      Except.ok (usersT, SaveResult.updated r1C true) ∧
    MySQLRecord.isModified r1C = Except.ok true ∧
    MySQLRecord.changes extD r1C Option.none ≠ Except.ok [] := by
  refine ⟨by decide, by decide, by decide⟩

/-- Witness for C1 (amended) on the concrete update-path save. -/
theorem claim_C1_save_never_resyncs_baseline_witness :
    MySQLRecord.save extD usersT dbU r1C =
      Except.ok (usersT, SaveResult.updated r1C true) ∧
    (r1C = r1C ∧ true = true) :=
  ⟨by decide,
   (claim_C1_save_never_resyncs_baseline extD usersT dbU r1C usersT
      (SaveResult.updated r1C true)
      (fun q hq => by
        have h0 : some ("Id" : String) = some q := hq
        rw [Option.some.injEq] at h0
        subst h0
        decide)
      (by decide)).1 r1C true rfl⟩

end Ohmy
